import Mathlib

/-!
# Event-parser position accounting: a shallow embedding

This file embeds the position-tracking core of the Skepsis event parser:
the live position aggregator (`src/database/position-tracker.ts`, class
`PositionTracker`), the bulk market-settlement updates, the rebuild job
(`src/database/schemas.ts`, `rebuildPositions`) and the ingestion handlers
(`EventHandlers` in the indexer), and proves or refutes the specified
properties about them.

Conventions of the embedding:
* TypeScript `bigint` fields become `Int`.
* The MongoDB collection `user_positions` (unique on the composite key
  (user_address, market_id, range_lower, range_upper)) becomes an
  association list `Store := List (PosKey × Position)`; `findOne` becomes
  a first-match lookup and `updateOne {_id}` a first-match replacement.
* `avg_entry_price` is a derived display field stored as a JS `number`
  (float); it is recomputed from `total_cost_basis / total_shares` on every
  write, is read back by no handler and appears in no claimed property, so
  it is left out of the `Position` record.
* The one floating-point computation that feeds an integer field —
  `Math.floor(avgCostPerShare * Number(sharesSold))` in `handleSale`, with
  `avgCostPerShare = Number(costBasis) / Number(shares)` — is embedded as
  the exact value of the same formula over `ℚ` (`Int.floor` of the exact
  rational product), which is the quantity the formula denotes.
-/

namespace EventParser

/-- The three event kinds of the immutable `position_events` log
(`event_type` in `schemas.ts`). -/
inductive EventType where
  | SHARES_PURCHASED
  | SHARES_SOLD
  | REWARDS_CLAIMED
deriving DecidableEq, Repr

/-- Values of `close_reason` the code writes: `'LOST_RESOLUTION'` in
`closeLosingPositions` and `'CLAIMED'` in `handleClaim`. -/
inductive CloseReason where
  | LOST_RESOLUTION
  | CLAIMED
deriving DecidableEq, Repr

/-- Composite key of the `user_positions` collection:
(user_address, market_id, range_lower, range_upper). -/
structure PosKey where
  userAddress : String
  marketId : String
  rangeLower : Int
  rangeUpper : Int
deriving DecidableEq, Repr

/-- A `user_positions` document (interface `UserPosition` in `schemas.ts`,
plus the optional settlement fields `unrealized_pnl`, `close_reason`,
`closed_at` that the tracker writes).  Optional document fields are
`Option`s; a field absent from the document is `none`. -/
structure Position where
  totalShares : Int
  totalCostBasis : Int
  realizedPnl : Int
  totalSharesSold : Int
  totalProceeds : Int
  unrealizedPnl : Option Int
  isActive : Bool
  closeReason : Option CloseReason
  firstPurchaseAt : Int
  lastUpdatedAt : Int
  lastTxDigest : String
  closedAt : Option Int
deriving DecidableEq, Repr

/-- The `user_positions` collection. -/
abbrev Store := List (PosKey × Position)

/-- Lookup (`findOne`) on the composite key: first matching document. -/
def findPos (key : PosKey) : Store → Option Position
  | [] => none
  | (k, v) :: rest => if k = key then some v else findPos key rest

/-- Point update (`updateOne` on the found document's `_id`): replace the (first) document the
preceding `findOne` located. -/
def updateFirst (key : PosKey) (f : Position → Position) : Store → Store
  | [] => []
  | (k, v) :: rest =>
      if k = key then (k, f v) :: rest else (k, v) :: updateFirst key f rest

/-- Embeds `avgCostPerShare = currentShares > 0n ? Number(currentCostBasis) /
Number(currentShares) : 0` from `PositionTracker.handleSale`, read as the
exact rational the float expression denotes. -/
def avgCostPerShare (currentShares currentCostBasis : Int) : ℚ :=
  if currentShares > 0 then (currentCostBasis : ℚ) / (currentShares : ℚ) else 0

/-- Embeds `costBasisOfSold = BigInt(Math.floor(avgCostPerShare *
Number(sharesSold)))` from `PositionTracker.handleSale`, with the float
product read as the exact rational product: for `currentShares > 0` the
floor of `(costBasis / shares) * sharesSold` is the integer floor division
`(costBasis * sharesSold) / shares` (`Int.ediv`, which rounds toward `-∞`
for a positive divisor, as `Math.floor` does); the lemma
`costBasisOfSold_eq_floor` below identifies this definition with the
rational-floor formula verbatim. -/
def costBasisOfSold (currentShares currentCostBasis sharesSold : Int) : Int :=
  if currentShares > 0 then (currentCostBasis * sharesSold) / currentShares else 0

/-- Parameters of `PositionTracker.handlePurchase`. -/
structure PurchaseParams where
  userAddress : String
  marketId : String
  rangeLower : Int
  rangeUpper : Int
  sharesPurchased : Int
  totalCost : Int
  timestamp : Int
  txDigest : String

/-- Parameters of `PositionTracker.handleSale`.  `positionIndex` and
`isFifoSell` are logged/persisted for audit only and do not enter the
computation, mirroring the source. -/
structure SaleParams where
  userAddress : String
  marketId : String
  rangeLower : Int
  rangeUpper : Int
  sharesSold : Int
  proceeds : Int
  timestamp : Int
  txDigest : String
  isFifoSell : Bool

/-- Parameters of `PositionTracker.handleClaim`. -/
structure ClaimParams where
  userAddress : String
  marketId : String
  rangeLower : Int
  rangeUpper : Int
  sharesClaimed : Int
  payoutAmount : Int
  timestamp : Int
  txDigest : String

def PurchaseParams.key (p : PurchaseParams) : PosKey :=
  ⟨p.userAddress, p.marketId, p.rangeLower, p.rangeUpper⟩

def SaleParams.key (p : SaleParams) : PosKey :=
  ⟨p.userAddress, p.marketId, p.rangeLower, p.rangeUpper⟩

def ClaimParams.key (p : ClaimParams) : PosKey :=
  ⟨p.userAddress, p.marketId, p.rangeLower, p.rangeUpper⟩

/-- Embeds `PositionTracker.handlePurchase`: upsert with
`$inc {total_shares, total_cost_basis}`,
`$set {last_updated_at, last_tx_digest, is_active: true}` and
`$setOnInsert {first_purchase_at, realized_pnl: 0, total_shares_sold: 0,
total_proceeds: 0}`.  The follow-up write recomputes only the omitted
float field `avg_entry_price`. -/
def handlePurchase (p : PurchaseParams) (store : Store) : Store :=
  match findPos p.key store with
  | some _ =>
      updateFirst p.key
        (fun pos =>
          { pos with
            totalShares := pos.totalShares + p.sharesPurchased
            totalCostBasis := pos.totalCostBasis + p.totalCost
            lastUpdatedAt := p.timestamp
            lastTxDigest := p.txDigest
            isActive := true })
        store
  | none =>
      store ++
        [(p.key,
          { totalShares := p.sharesPurchased
            totalCostBasis := p.totalCost
            realizedPnl := 0
            totalSharesSold := 0
            totalProceeds := 0
            unrealizedPnl := none
            isActive := true
            closeReason := none
            firstPurchaseAt := p.timestamp
            lastUpdatedAt := p.timestamp
            lastTxDigest := p.txDigest
            closedAt := none })]

/-- Embeds `PositionTracker.handleSale` (the version returning
`{ realizedPnlDelta }`): position not found is a no-op returning delta 0;
otherwise remove the weighted-average cost of the sold shares, realize
`proceeds - costBasisOfSold`, and set `is_active := newShares > 0n`.
The over-sell case only logs a warning and proceeds. -/
def handleSale (p : SaleParams) (store : Store) : Store × Int :=
  match findPos p.key store with
  | none => (store, 0)
  | some pos =>
      let currentShares := pos.totalShares
      let currentCostBasis := pos.totalCostBasis
      let costRemoved := costBasisOfSold currentShares currentCostBasis p.sharesSold
      let realizedPnl := p.proceeds - costRemoved
      let newShares := currentShares - p.sharesSold
      let newCostBasis := currentCostBasis - costRemoved
      (updateFirst p.key
        (fun pos =>
          { pos with
            totalShares := newShares
            totalCostBasis := newCostBasis
            isActive := newShares > 0
            lastUpdatedAt := p.timestamp
            lastTxDigest := p.txDigest
            realizedPnl := pos.realizedPnl + realizedPnl
            totalSharesSold := pos.totalSharesSold + p.sharesSold
            totalProceeds := pos.totalProceeds + p.proceeds })
        store,
       realizedPnl)

/-- Embeds `PositionTracker.handleClaim` (the version returning
`{ realizedPnlDelta }`, `position-tracker.ts` lines 154-209): position
not found is a no-op returning delta 0; otherwise move the stored
`unrealized_pnl` (`position.unrealized_pnl || 0n`) into `realized_pnl`,
zero shares / cost basis / unrealized pnl, close with reason `CLAIMED`,
and `$inc` `total_shares_sold` and `total_proceeds`. -/
def handleClaim (p : ClaimParams) (store : Store) : Store × Int :=
  match findPos p.key store with
  | none => (store, 0)
  | some pos =>
      let unrealizedPnl := pos.unrealizedPnl.getD 0
      (updateFirst p.key
        (fun pos =>
          { pos with
            totalShares := 0
            totalCostBasis := 0
            unrealizedPnl := some 0
            isActive := false
            closeReason := some CloseReason.CLAIMED
            lastUpdatedAt := p.timestamp
            lastTxDigest := p.txDigest
            realizedPnl := pos.realizedPnl + unrealizedPnl
            totalSharesSold := pos.totalSharesSold + p.sharesClaimed
            totalProceeds := pos.totalProceeds + p.payoutAmount })
        store,
       unrealizedPnl)

/-! ## Market settlement (bulk updates) -/

/-- The per-document transform of `PositionTracker.closeLosingPositions`:
`updateMany` filtered on `market_id`, `is_active: true` and
`range_lower > resolvedValue OR range_upper < resolvedValue`, setting
`is_active: false`, `closed_at`, `last_updated_at`, `close_reason:
'LOST_RESOLUTION'` and `unrealized_pnl: -total_cost_basis`.
`closedTimestamp` is the `BigInt(Date.now())` the source captures once per
call. -/
def closeLosingUpdate (marketId : String) (resolvedValue closedTimestamp : Int)
    (entry : PosKey × Position) : PosKey × Position :=
  if entry.1.marketId = marketId ∧ entry.2.isActive = true ∧
      (entry.1.rangeLower > resolvedValue ∨ entry.1.rangeUpper < resolvedValue) then
    (entry.1,
      { entry.2 with
          isActive := false
          closedAt := some closedTimestamp
          lastUpdatedAt := closedTimestamp
          closeReason := some CloseReason.LOST_RESOLUTION
          unrealizedPnl := some (-entry.2.totalCostBasis) })
  else entry

/-- Embeds `PositionTracker.closeLosingPositions` as a bulk update over the
collection. -/
def closeLosingPositions (marketId : String) (resolvedValue closedTimestamp : Int)
    (store : Store) : Store :=
  store.map (closeLosingUpdate marketId resolvedValue closedTimestamp)

/-- The per-document transform of
`PositionTracker.calculateWinningPositions`: `updateMany` filtered on
`market_id`, `is_active: true`, `range_lower ≤ resolvedValue` and
`range_upper ≥ resolvedValue`, setting `unrealized_pnl: total_shares -
total_cost_basis`; `is_active` stays true. -/
def calculateWinningUpdate (marketId : String) (resolvedValue : Int)
    (entry : PosKey × Position) : PosKey × Position :=
  if entry.1.marketId = marketId ∧ entry.2.isActive = true ∧
      entry.1.rangeLower ≤ resolvedValue ∧ entry.1.rangeUpper ≥ resolvedValue then
    (entry.1,
      { entry.2 with
          unrealizedPnl := some (entry.2.totalShares - entry.2.totalCostBasis) })
  else entry

/-- Embeds `PositionTracker.calculateWinningPositions` as a bulk update over the
collection. -/
def calculateWinningPositions (marketId : String) (resolvedValue : Int)
    (store : Store) : Store :=
  store.map (calculateWinningUpdate marketId resolvedValue)

/-- One settlement run over a resolved market: the losing bulk update
followed by the winning bulk update (the order the settlement engine
executes them in). -/
def settleMarket (marketId : String) (resolvedValue closedTimestamp : Int)
    (store : Store) : Store :=
  calculateWinningPositions marketId resolvedValue
    (closeLosingPositions marketId resolvedValue closedTimestamp store)

/-! ## The immutable event log and the rebuild job -/

/-- A `position_events` document (interface `PositionEvent` in
`schemas.ts`).  The audit-only fields `position_store_id`,
`position_index`, `is_fifo_sell` and `indexed_at` take no part in any
computation a claim is about and are elided. -/
structure PositionEvent where
  txDigest : String
  checkpoint : Int
  timestamp : Int
  eventType : EventType
  userAddress : String
  marketId : String
  rangeLower : Int
  rangeUpper : Int
  sharesDelta : Int
  usdcDelta : Int
  pricePerShare : Int
deriving DecidableEq, Repr

def PositionEvent.key (e : PositionEvent) : PosKey :=
  ⟨e.userAddress, e.marketId, e.rangeLower, e.rangeUpper⟩

/-- Stable insertion of an event into a timestamp-sorted list (an event is
placed after all earlier-or-equal timestamps), embedding the pipeline's
`$sort {timestamp: 1}`. -/
def insertByTimestamp (e : PositionEvent) : List PositionEvent → List PositionEvent
  | [] => [e]
  | e' :: rest =>
      if e'.timestamp ≤ e.timestamp then e' :: insertByTimestamp e rest
      else e :: e' :: rest

/-- Timestamp sort of an event list (`$sort {timestamp: 1}`). -/
def sortByTimestamp : List PositionEvent → List PositionEvent
  | [] => []
  | e :: rest => insertByTimestamp e (sortByTimestamp rest)

/-- The accumulator fields of the `$group` stage in `rebuildPositions`. -/
structure RebuildAcc where
  totalShares : Int
  totalCostBasis : Int
  realizedPnl : Int
  totalSharesSold : Int
  totalProceeds : Int
  firstPurchaseAt : Int
  lastUpdatedAt : Int
  lastTxDigest : String
deriving DecidableEq, Repr

/-- One event folded into the `$group` accumulators of `rebuildPositions`:
`total_shares` sums every `shares_delta`; `total_cost_basis` adds
`abs(usdc_delta)` only when `shares_delta > 0`; `realized_pnl` and
`total_proceeds` add `usdc_delta` only when `shares_delta < 0`;
`total_shares_sold` adds `abs(shares_delta)` only when `shares_delta < 0`;
`first_purchase_at` is `$min timestamp`, `last_updated_at` is
`$max timestamp`, `last_tx_digest` is `$last tx_digest`. -/
def rebuildStep (acc : RebuildAcc) (e : PositionEvent) : RebuildAcc :=
  { totalShares := acc.totalShares + e.sharesDelta
    totalCostBasis :=
      acc.totalCostBasis + (if e.sharesDelta > 0 then |e.usdcDelta| else 0)
    realizedPnl := acc.realizedPnl + (if e.sharesDelta < 0 then e.usdcDelta else 0)
    totalSharesSold :=
      acc.totalSharesSold + (if e.sharesDelta < 0 then |e.sharesDelta| else 0)
    totalProceeds := acc.totalProceeds + (if e.sharesDelta < 0 then e.usdcDelta else 0)
    firstPurchaseAt := min acc.firstPurchaseAt e.timestamp
    lastUpdatedAt := max acc.lastUpdatedAt e.timestamp
    lastTxDigest := e.txDigest }

/-- Embeds `rebuildPositions` restricted to one (user, market, range) group: sort
the group's events by timestamp, run the `$group` accumulators, apply the
`$match {total_shares > 0 OR realized_pnl ≠ 0}` filter, and materialize
the `user_positions` document with `is_active := totalShares > 0n` (the
rebuild writes neither `unrealized_pnl`, nor `close_reason`, nor
`closed_at`). -/
def rebuildPositionForKey (key : PosKey) (events : List PositionEvent) :
    Option Position :=
  match sortByTimestamp (events.filter (fun e => e.key = key)) with
  | [] => none
  | e :: rest =>
      let init : RebuildAcc :=
        { totalShares := e.sharesDelta
          totalCostBasis := if e.sharesDelta > 0 then |e.usdcDelta| else 0
          realizedPnl := if e.sharesDelta < 0 then e.usdcDelta else 0
          totalSharesSold := if e.sharesDelta < 0 then |e.sharesDelta| else 0
          totalProceeds := if e.sharesDelta < 0 then e.usdcDelta else 0
          firstPurchaseAt := e.timestamp
          lastUpdatedAt := e.timestamp
          lastTxDigest := e.txDigest }
      let acc := rest.foldl rebuildStep init
      if acc.totalShares > 0 ∨ acc.realizedPnl ≠ 0 then
        some
          { totalShares := acc.totalShares
            totalCostBasis := acc.totalCostBasis
            realizedPnl := acc.realizedPnl
            totalSharesSold := acc.totalSharesSold
            totalProceeds := acc.totalProceeds
            unrealizedPnl := none
            isActive := acc.totalShares > 0
            closeReason := none
            firstPurchaseAt := acc.firstPurchaseAt
            lastUpdatedAt := acc.lastUpdatedAt
            lastTxDigest := acc.lastTxDigest
            closedAt := none }
      else none

/-- One logged event applied to the live aggregator, inverting the field
mapping the ingestion handlers use when they write the log record and call
the tracker from the same raw values: a purchase logs `shares_delta =
sharesPurchased` and `usdc_delta = -totalCost`; a sale logs `shares_delta
= -sharesSold` and `usdc_delta = proceeds`; a claim logs `shares_delta =
-sharesClaimed` and `usdc_delta = payoutAmount`. -/
def applyEventLive (store : Store) (e : PositionEvent) : Store :=
  match e.eventType with
  | EventType.SHARES_PURCHASED =>
      handlePurchase
        { userAddress := e.userAddress, marketId := e.marketId
          rangeLower := e.rangeLower, rangeUpper := e.rangeUpper
          sharesPurchased := e.sharesDelta, totalCost := -e.usdcDelta
          timestamp := e.timestamp, txDigest := e.txDigest } store
  | EventType.SHARES_SOLD =>
      (handleSale
        { userAddress := e.userAddress, marketId := e.marketId
          rangeLower := e.rangeLower, rangeUpper := e.rangeUpper
          sharesSold := -e.sharesDelta, proceeds := e.usdcDelta
          timestamp := e.timestamp, txDigest := e.txDigest
          isFifoSell := false } store).1
  | EventType.REWARDS_CLAIMED =>
      (handleClaim
        { userAddress := e.userAddress, marketId := e.marketId
          rangeLower := e.rangeLower, rangeUpper := e.rangeUpper
          sharesClaimed := -e.sharesDelta, payoutAmount := e.usdcDelta
          timestamp := e.timestamp, txDigest := e.txDigest } store).1

/-- The live aggregator run over an event sequence in order, from an empty
collection. -/
def replayLive (events : List PositionEvent) : Store :=
  events.foldl applyEventLive []

/-- The accounting state of a position, the six fields the replay
equivalence is stated over: (total_shares, total_cost_basis, realized_pnl,
total_shares_sold, total_proceeds, is_active). -/
def accounting (pos : Position) : Int × Int × Int × Int × Int × Bool :=
  (pos.totalShares, pos.totalCostBasis, pos.realizedPnl,
   pos.totalSharesSold, pos.totalProceeds, pos.isActive)

/-! ## Ingestion (`EventHandlers` of the indexer)

Each handler runs inside one `try { ... } catch (error) { if (error.code
=== 11000) swallow else throw }` block: three sequential writes — insert
into `trades` (unique on `tx_hash`), insert into `position_events`
(unique on `(tx_digest, event_type)`), then the `PositionTracker` update.
A duplicate-key rejection of either insert aborts the remainder of the
block, keeps the writes already made, and is swallowed.  The `trades`
documents themselves feed no claimed property, so the `trades` collection
is embedded as the list of its unique keys (`tx_hash`). -/

/-- Ingestion-visible database state: the `trades` keys, the
`position_events` log, and the `user_positions` aggregate. -/
structure IngestState where
  trades : List String
  positionEvents : List PositionEvent
  positions : Store
deriving DecidableEq

/-- Insert (`insertOne`) into `trades`: rejected (`none`) when the unique `tx_hash`
index already holds the key. -/
def insertTrade (txDigest : String) (trades : List String) : Option (List String) :=
  if txDigest ∈ trades then none else some (trades ++ [txDigest])

/-- Whether the `position_events` unique index `(tx_digest, event_type)`
already holds the record's key. -/
def eventKeyPresent (e : PositionEvent) (log : List PositionEvent) : Bool :=
  log.any (fun e' => e'.txDigest = e.txDigest ∧ e'.eventType = e.eventType)

/-- Insert (`insertOne`) into `position_events`: rejected (`none`) on a duplicate
`(tx_digest, event_type)` key. -/
def insertPositionEvent (e : PositionEvent) (log : List PositionEvent) :
    Option (List PositionEvent) :=
  if eventKeyPresent e log then none else some (log ++ [e])

/-- Raw fields a `BetPlaced` chain event and its envelope contribute:
`user`, `market_id`, `range_start`, `range_end`, `shares_received`,
`bet_amount`, `price_per_share`, plus `txDigest`, `checkpoint` and the
envelope timestamp. -/
structure BetPlacedParams where
  user : String
  marketId : String
  rangeStart : Int
  rangeEnd : Int
  sharesReceived : Int
  betAmount : Int
  pricePerShare : Int
  txDigest : String
  checkpoint : Int
  timestampMs : Int

/-- Raw fields of a `SharesSold` chain event. -/
structure SharesSoldParams where
  user : String
  marketId : String
  rangeStart : Int
  rangeEnd : Int
  sharesSold : Int
  amountReceived : Int
  pricePerShare : Int
  txDigest : String
  checkpoint : Int
  timestampMs : Int
  isFifoSell : Bool

/-- Raw fields of a `WinningsClaimed` chain event. -/
structure WinningsClaimedParams where
  user : String
  marketId : String
  rangeStart : Int
  rangeEnd : Int
  sharesClaimed : Int
  payoutAmount : Int
  txDigest : String
  checkpoint : Int
  timestampMs : Int

/-- The `position_events` record `EventHandlers.handleBetPlaced` inserts:
`event_type: 'SHARES_SOLD'` (as written in the source), `shares_delta =
sharesPurchased` and `usdc_delta = -totalCost`. -/
def betPlacedRecord (p : BetPlacedParams) : PositionEvent :=
  { txDigest := p.txDigest
    checkpoint := p.checkpoint
    timestamp := p.timestampMs
    eventType := EventType.SHARES_SOLD
    userAddress := p.user
    marketId := p.marketId
    rangeLower := p.rangeStart
    rangeUpper := p.rangeEnd
    sharesDelta := p.sharesReceived
    usdcDelta := -p.betAmount
    pricePerShare := p.pricePerShare }

/-- Embeds `EventHandlers.handleBetPlaced`: insert the trade, insert the log
record, update the aggregate via `handlePurchase`; a duplicate-key
rejection stops the block there and is swallowed. -/
def handleBetPlaced (p : BetPlacedParams) (s : IngestState) : IngestState :=
  match insertTrade p.txDigest s.trades with
  | none => s
  | some trades =>
      match insertPositionEvent (betPlacedRecord p) s.positionEvents with
      | none => { s with trades := trades }
      | some log =>
          { trades := trades
            positionEvents := log
            positions :=
              handlePurchase
                { userAddress := p.user, marketId := p.marketId
                  rangeLower := p.rangeStart, rangeUpper := p.rangeEnd
                  sharesPurchased := p.sharesReceived, totalCost := p.betAmount
                  timestamp := p.timestampMs, txDigest := p.txDigest }
                s.positions }

/-- The `position_events` record `EventHandlers.handleSharesSold` inserts:
`event_type: 'SHARES_SOLD'`, `shares_delta = -sharesSold`, `usdc_delta =
proceeds`. -/
def sharesSoldRecord (p : SharesSoldParams) : PositionEvent :=
  { txDigest := p.txDigest
    checkpoint := p.checkpoint
    timestamp := p.timestampMs
    eventType := EventType.SHARES_SOLD
    userAddress := p.user
    marketId := p.marketId
    rangeLower := p.rangeStart
    rangeUpper := p.rangeEnd
    sharesDelta := -p.sharesSold
    usdcDelta := p.amountReceived
    pricePerShare := p.pricePerShare }

/-- Embeds `EventHandlers.handleSharesSold`: insert the trade, insert the log
record, update the aggregate via `handleSale`. -/
def handleSharesSold (p : SharesSoldParams) (s : IngestState) : IngestState :=
  match insertTrade p.txDigest s.trades with
  | none => s
  | some trades =>
      match insertPositionEvent (sharesSoldRecord p) s.positionEvents with
      | none => { s with trades := trades }
      | some log =>
          { trades := trades
            positionEvents := log
            positions :=
              (handleSale
                { userAddress := p.user, marketId := p.marketId
                  rangeLower := p.rangeStart, rangeUpper := p.rangeEnd
                  sharesSold := p.sharesSold, proceeds := p.amountReceived
                  timestamp := p.timestampMs, txDigest := p.txDigest
                  isFifoSell := p.isFifoSell }
                s.positions).1 }

/-- The `position_events` record `EventHandlers.handleWinningsClaimed`
inserts: `event_type: 'REWARDS_CLAIMED'`, `shares_delta = -sharesClaimed`,
`usdc_delta = payoutAmount`, `price_per_share = 1_000_000`. -/
def winningsClaimedRecord (p : WinningsClaimedParams) : PositionEvent :=
  { txDigest := p.txDigest
    checkpoint := p.checkpoint
    timestamp := p.timestampMs
    eventType := EventType.REWARDS_CLAIMED
    userAddress := p.user
    marketId := p.marketId
    rangeLower := p.rangeStart
    rangeUpper := p.rangeEnd
    sharesDelta := -p.sharesClaimed
    usdcDelta := p.payoutAmount
    pricePerShare := 1000000 }

/-- Embeds `EventHandlers.handleWinningsClaimed`: insert the trade, insert the
log record, update the aggregate via `handleClaim`. -/
def handleWinningsClaimed (p : WinningsClaimedParams) (s : IngestState) :
    IngestState :=
  match insertTrade p.txDigest s.trades with
  | none => s
  | some trades =>
      match insertPositionEvent (winningsClaimedRecord p) s.positionEvents with
      | none => { s with trades := trades }
      | some log =>
          { trades := trades
            positionEvents := log
            positions :=
              (handleClaim
                { userAddress := p.user, marketId := p.marketId
                  rangeLower := p.rangeStart, rangeUpper := p.rangeEnd
                  sharesClaimed := p.sharesClaimed, payoutAmount := p.payoutAmount
                  timestamp := p.timestampMs, txDigest := p.txDigest }
                s.positions).1 }

/-! ## Concrete instances used by the claim checks

Shares and cash amounts follow the spec's scenarios: buy 100 shares for
50 units in range [90000, 91000), sell 40 for 25, resolution inside or
outside the range, claim payout 60. -/

/-- Position key of the replay-equivalence counterexample. -/
def c1Key : PosKey := ⟨"u1", "m1", 90000, 91000⟩

/-- A logged purchase of 100 shares for 50 (`shares_delta = 100`,
`usdc_delta = -50`). -/
def c1Buy : PositionEvent :=
  { txDigest := "c1t1", checkpoint := 1, timestamp := 1
    eventType := EventType.SHARES_PURCHASED
    userAddress := "u1", marketId := "m1"
    rangeLower := 90000, rangeUpper := 91000
    sharesDelta := 100, usdcDelta := -50, pricePerShare := 500000 }

/-- A logged sale of 40 shares for 25 (`shares_delta = -40`,
`usdc_delta = 25`). -/
def c1Sell : PositionEvent :=
  { txDigest := "c1t2", checkpoint := 2, timestamp := 2
    eventType := EventType.SHARES_SOLD
    userAddress := "u1", marketId := "m1"
    rangeLower := 90000, rangeUpper := 91000
    sharesDelta := -40, usdcDelta := 25, pricePerShare := 625000 }

/-- A raw `BetPlaced` chain event: 100 shares bought for 50. -/
def c2Bet : BetPlacedParams :=
  { user := "u2", marketId := "m2", rangeStart := 90000, rangeEnd := 91000
    sharesReceived := 100, betAmount := 50, pricePerShare := 500000
    txDigest := "c2t1", checkpoint := 1, timestampMs := 1 }

/-- A raw `SharesSold` chain event on the same market, for comparing the
event kind the purchase record receives with the one sale records use. -/
def c2Sell : SharesSoldParams :=
  { user := "u2", marketId := "m2", rangeStart := 90000, rangeEnd := 91000
    sharesSold := 40, amountReceived := 25, pricePerShare := 625000
    txDigest := "c2t2", checkpoint := 2, timestampMs := 2
    isFifoSell := true }

/-- A raw `WinningsClaimed` chain event, payout 60 for 60 shares. -/
def c2ClaimEvt : WinningsClaimedParams :=
  { user := "u2", marketId := "m2", rangeStart := 90000, rangeEnd := 91000
    sharesClaimed := 60, payoutAmount := 60
    txDigest := "c2t3", checkpoint := 3, timestampMs := 3 }

/-- Position key of the claim-postcondition scenario. -/
def c3Key : PosKey := ⟨"u3", "m3", 90000, 91000⟩

/-- A position holding 60 shares at cost basis 30 that has never been
settled, so its document carries no `unrealized_pnl` field. -/
def c3Pos : Position :=
  { totalShares := 60, totalCostBasis := 30, realizedPnl := 0
    totalSharesSold := 40, totalProceeds := 25
    unrealizedPnl := none, isActive := true, closeReason := none
    firstPurchaseAt := 1, lastUpdatedAt := 2, lastTxDigest := "c3t2"
    closedAt := none }

/-- The same position after a winning settlement wrote
`unrealized_pnl = totalShares - totalCostBasis = 30` (Scenario C). -/
def c3WinPos : Position := { c3Pos with unrealizedPnl := some 30 }

/-- A claim of 60 shares for payout 60 against that position
(Scenario E). -/
def c3Claim : ClaimParams :=
  { userAddress := "u3", marketId := "m3", rangeLower := 90000, rangeUpper := 91000
    sharesClaimed := 60, payoutAmount := 60, timestamp := 3, txDigest := "c3t3" }

/-- Position key of the sale-postcondition scenario. -/
def c4Key : PosKey := ⟨"u4", "m4", 90000, 91000⟩

/-- Scenario A purchase: 100 shares for 50. -/
def c4Buy : PurchaseParams :=
  { userAddress := "u4", marketId := "m4", rangeLower := 90000, rangeUpper := 91000
    sharesPurchased := 100, totalCost := 50, timestamp := 1, txDigest := "c4t1" }

/-- The store after Scenario A. -/
def c4Store : Store := handlePurchase c4Buy []

/-- The position document Scenario A produces: 100 shares, cost basis 50. -/
def c4Pos : Position :=
  { totalShares := 100, totalCostBasis := 50, realizedPnl := 0
    totalSharesSold := 0, totalProceeds := 0
    unrealizedPnl := none, isActive := true, closeReason := none
    firstPurchaseAt := 1, lastUpdatedAt := 1, lastTxDigest := "c4t1"
    closedAt := none }

/-- Scenario B sale: 40 shares for 25. -/
def c4Sale : SaleParams :=
  { userAddress := "u4", marketId := "m4", rangeLower := 90000, rangeUpper := 91000
    sharesSold := 40, proceeds := 25, timestamp := 2, txDigest := "c4t2"
    isFifoSell := true }

/-- Position key of the winning-settlement scenario; note
`rangeUpper = 91000`. -/
def c5Key : PosKey := ⟨"u5", "m5", 90000, 91000⟩

/-- An active position of that market: 60 shares, cost basis 30. -/
def c5Pos : Position :=
  { totalShares := 60, totalCostBasis := 30, realizedPnl := 5
    totalSharesSold := 40, totalProceeds := 25
    unrealizedPnl := none, isActive := true, closeReason := none
    firstPurchaseAt := 1, lastUpdatedAt := 2, lastTxDigest := "c5t2"
    closedAt := none }

/-- Store of the winning-settlement scenario. -/
def c5Store : Store := [(c5Key, c5Pos)]

/-- Position key of the losing-settlement scenario. -/
def c6Key : PosKey := ⟨"u6", "m6", 90000, 91000⟩

/-- An active position of market `m6`: 60 shares, cost basis 30. -/
def c6Pos : Position :=
  { totalShares := 60, totalCostBasis := 30, realizedPnl := 5
    totalSharesSold := 40, totalProceeds := 25
    unrealizedPnl := none, isActive := true, closeReason := none
    firstPurchaseAt := 1, lastUpdatedAt := 2, lastTxDigest := "c6t2"
    closedAt := none }

/-- A position of a different market, which settlement of `m6` must leave
untouched. -/
def c6KeyOther : PosKey := ⟨"u6", "mOther", 0, 100⟩

/-- The other-market position's document. -/
def c6PosOther : Position :=
  { totalShares := 7, totalCostBasis := 3, realizedPnl := 0
    totalSharesSold := 0, totalProceeds := 0
    unrealizedPnl := none, isActive := true, closeReason := none
    firstPurchaseAt := 1, lastUpdatedAt := 1, lastTxDigest := "c6o1"
    closedAt := none }

/-- Store of the losing-settlement scenario. -/
def c6Store : Store := [(c6Key, c6Pos), (c6KeyOther, c6PosOther)]

/-- A sale arriving with no matching position on file. -/
def c9Sale : SaleParams :=
  { userAddress := "u9", marketId := "m9", rangeLower := 90000, rangeUpper := 91000
    sharesSold := 40, proceeds := 25, timestamp := 2, txDigest := "c9t1"
    isFifoSell := false }

/-- A claim arriving with no matching position on file. -/
def c9Claim : ClaimParams :=
  { userAddress := "u9", marketId := "m9", rangeLower := 90000, rangeUpper := 91000
    sharesClaimed := 60, payoutAmount := 60, timestamp := 3, txDigest := "c9t2" }

/-- Position key of the zero-share sale edge case. -/
def c10Key : PosKey := ⟨"u10", "m10", 90000, 91000⟩

/-- An existing position whose `total_shares` is 0 (e.g. fully sold out)
with a residual cost basis. -/
def c10Pos : Position :=
  { totalShares := 0, totalCostBasis := 4, realizedPnl := 5
    totalSharesSold := 100, totalProceeds := 55
    unrealizedPnl := none, isActive := false, closeReason := none
    firstPurchaseAt := 1, lastUpdatedAt := 2, lastTxDigest := "cAt2"
    closedAt := none }

/-- Store of the zero-share sale edge case. -/
def c10Store : Store := [(c10Key, c10Pos)]

/-- A sale of 40 shares for 25 against the zero-share position. -/
def c10Sale : SaleParams :=
  { userAddress := "u10", marketId := "m10", rangeLower := 90000, rangeUpper := 91000
    sharesSold := 40, proceeds := 25, timestamp := 3, txDigest := "cAt3"
    isFifoSell := false }

/-! ## Supporting lemmas -/

/-- The executable integer form of `costBasisOfSold` is exactly the floor
of the rational `avgCostPerShare * sharesSold` that the source formula
denotes. -/
theorem costBasisOfSold_eq_floor (currentShares currentCostBasis sharesSold : Int) :
    costBasisOfSold currentShares currentCostBasis sharesSold =
      ⌊avgCostPerShare currentShares currentCostBasis * (sharesSold : ℚ)⌋ := by
  unfold costBasisOfSold avgCostPerShare
  by_cases h : currentShares > 0
  · simp only [h, if_true]
    rw [div_mul_eq_mul_div, ← Int.cast_mul]
    have hs : currentShares = ((currentShares.toNat : ℕ) : ℤ) := by omega
    rw [hs, Int.cast_natCast, Rat.floor_intCast_div_natCast]
  · simp [h]

/-- Looking up a key after replacing the document at that key yields the
replaced document. -/
theorem findPos_updateFirst (key : PosKey) (f : Position → Position) (store : Store) :
    findPos key (updateFirst key f store) = (findPos key store).map f := by
  induction store with
  | nil => rfl
  | cons kv rest ih =>
      obtain ⟨k, v⟩ := kv
      by_cases h : k = key
      · simp [updateFirst, findPos, h]
      · simp [updateFirst, findPos, h, ih]

/-- Pointwise idempotence of one settlement pass: applying the losing
update (with any later timestamp) and then the winning update to an
already-settled document changes nothing. -/
theorem settleUpdate_idem (m : String) (rv ts1 ts2 : Int) (entry : PosKey × Position) :
    calculateWinningUpdate m rv (closeLosingUpdate m rv ts2
      (calculateWinningUpdate m rv (closeLosingUpdate m rv ts1 entry))) =
    calculateWinningUpdate m rv (closeLosingUpdate m rv ts1 entry) := by
  obtain ⟨k, pos⟩ := entry
  by_cases hm : k.marketId = m
  · by_cases hact : pos.isActive = true
    · by_cases hlose : k.rangeLower > rv ∨ k.rangeUpper < rv
      · simp [closeLosingUpdate, calculateWinningUpdate, hm, hact, hlose]
      · have hw : k.rangeLower ≤ rv ∧ k.rangeUpper ≥ rv := by
          push_neg at hlose
          omega
        simp [closeLosingUpdate, calculateWinningUpdate, hm, hact, hlose, hw.1, hw.2]
    · simp [closeLosingUpdate, calculateWinningUpdate, hm, hact]
  · simp [closeLosingUpdate, calculateWinningUpdate, hm]

/-- A successful `trades` insert puts the transaction hash into the
collection. -/
theorem insertTrade_self_mem {tx : String} {l l' : List String}
    (h : insertTrade tx l = some l') : tx ∈ l' := by
  by_cases hm : tx ∈ l
  · simp [insertTrade, hm] at h
  · simp only [insertTrade, hm, if_false, Option.some.injEq] at h
    subst h
    simp

/-- After `handleBetPlaced` runs, the transaction hash is in `trades`
(either it was inserted now or the duplicate was already there). -/
theorem handleBetPlaced_mem_trades (p : BetPlacedParams) (s : IngestState) :
    p.txDigest ∈ (handleBetPlaced p s).trades := by
  unfold handleBetPlaced
  cases htr : insertTrade p.txDigest s.trades with
  | none =>
      have hmem : p.txDigest ∈ s.trades := by
        by_cases hm : p.txDigest ∈ s.trades
        · exact hm
        · simp [insertTrade, hm] at htr
      simpa using hmem
  | some tr =>
      have hmem := insertTrade_self_mem htr
      cases hev : insertPositionEvent (betPlacedRecord p) s.positionEvents <;>
        simpa using hmem

/-- A re-delivered `BetPlaced` whose transaction hash is already in
`trades` is swallowed without touching any collection. -/
theorem handleBetPlaced_dup (p : BetPlacedParams) (s : IngestState)
    (h : p.txDigest ∈ s.trades) : handleBetPlaced p s = s := by
  unfold handleBetPlaced
  simp [insertTrade, h]

/-- After `handleSharesSold` runs, the transaction hash is in `trades`. -/
theorem handleSharesSold_mem_trades (p : SharesSoldParams) (s : IngestState) :
    p.txDigest ∈ (handleSharesSold p s).trades := by
  unfold handleSharesSold
  cases htr : insertTrade p.txDigest s.trades with
  | none =>
      have hmem : p.txDigest ∈ s.trades := by
        by_cases hm : p.txDigest ∈ s.trades
        · exact hm
        · simp [insertTrade, hm] at htr
      simpa using hmem
  | some tr =>
      have hmem := insertTrade_self_mem htr
      cases hev : insertPositionEvent (sharesSoldRecord p) s.positionEvents <;>
        simpa using hmem

/-- A re-delivered `SharesSold` whose transaction hash is already in
`trades` is swallowed without touching any collection. -/
theorem handleSharesSold_dup (p : SharesSoldParams) (s : IngestState)
    (h : p.txDigest ∈ s.trades) : handleSharesSold p s = s := by
  unfold handleSharesSold
  simp [insertTrade, h]

/-- After `handleWinningsClaimed` runs, the transaction hash is in
`trades`. -/
theorem handleWinningsClaimed_mem_trades (p : WinningsClaimedParams) (s : IngestState) :
    p.txDigest ∈ (handleWinningsClaimed p s).trades := by
  unfold handleWinningsClaimed
  cases htr : insertTrade p.txDigest s.trades with
  | none =>
      have hmem : p.txDigest ∈ s.trades := by
        by_cases hm : p.txDigest ∈ s.trades
        · exact hm
        · simp [insertTrade, hm] at htr
      simpa using hmem
  | some tr =>
      have hmem := insertTrade_self_mem htr
      cases hev : insertPositionEvent (winningsClaimedRecord p) s.positionEvents <;>
        simpa using hmem

/-- A re-delivered `WinningsClaimed` whose transaction hash is already in
`trades` is swallowed without touching any collection. -/
theorem handleWinningsClaimed_dup (p : WinningsClaimedParams) (s : IngestState)
    (h : p.txDigest ∈ s.trades) : handleWinningsClaimed p s = s := by
  unfold handleWinningsClaimed
  simp [insertTrade, h]

/-! ## The claims -/

/-- C1: the replay-equivalence claim fails on the code.  For the
two-event sequence "buy 100 shares for 50, then sell 40 for 25" on one
(user, market, range), the rebuild job computes
(total_shares, total_cost_basis, realized_pnl, total_shares_sold,
total_proceeds, is_active) = (60, 50, 25, 40, 25, true) — its
`total_cost_basis` keeps the full purchase cost because sales never
reduce it, and its `realized_pnl` is the raw sale proceeds — while the
live aggregator computes (60, 30, 5, 40, 25, true); the two outputs
differ. -/
theorem C1_replay_divergence :
    (rebuildPositionForKey c1Key [c1Buy, c1Sell]).map accounting
        = some (60, 50, 25, 40, 25, true) ∧
    (findPos c1Key (replayLive [c1Buy, c1Sell])).map accounting
        = some (60, 30, 5, 40, 25, true) ∧
    (rebuildPositionForKey c1Key [c1Buy, c1Sell]).map accounting
        ≠ (findPos c1Key (replayLive [c1Buy, c1Sell])).map accounting := by
  refine ⟨by decide, by decide, by decide⟩

/-- C2: the purchase-record event kind claim fails on the code.  The
`position_events` record `handleBetPlaced` appends for a purchase has
`event_type = SHARES_SOLD` — the same kind `handleSharesSold` uses for
sale records — not `SHARES_PURCHASED`, even though its deltas are the
purchase-shaped `shares_delta > 0` and `usdc_delta < 0`; sale and claim
records do carry `shares_delta < 0` and `usdc_delta > 0`. -/
theorem C2_purchase_event_kind_divergence :
    ((handleBetPlaced c2Bet ⟨[], [], []⟩).positionEvents.map PositionEvent.eventType
        = [EventType.SHARES_SOLD]) ∧
    EventType.SHARES_SOLD ≠ EventType.SHARES_PURCHASED ∧
    (betPlacedRecord c2Bet).sharesDelta > 0 ∧
    (betPlacedRecord c2Bet).usdcDelta < 0 ∧
    (sharesSoldRecord c2Sell).eventType = EventType.SHARES_SOLD ∧
    (sharesSoldRecord c2Sell).sharesDelta < 0 ∧
    (sharesSoldRecord c2Sell).usdcDelta > 0 ∧
    (winningsClaimedRecord c2ClaimEvt).eventType = EventType.REWARDS_CLAIMED ∧
    (winningsClaimedRecord c2ClaimEvt).sharesDelta < 0 ∧
    (winningsClaimedRecord c2ClaimEvt).usdcDelta > 0 := by
  decide

/-- C3 counterexample: the claim "realizedPnl increases by exactly
(payout − totalCostBasis)" is false at a concrete input.  For a position
with totalCostBasis = 30 holding no stored `unrealized_pnl`, a claim with
payout 60 returns a realized-PnL delta of 0 and leaves `realized_pnl` at
0, while payout − totalCostBasis = 30. -/
theorem C3_counterexample :
    (handleClaim c3Claim [(c3Key, c3Pos)]).2 = 0 ∧
    (findPos c3Key (handleClaim c3Claim [(c3Key, c3Pos)]).1).map Position.realizedPnl
        = some 0 ∧
    c3Claim.payoutAmount - c3Pos.totalCostBasis = 30 ∧
    (0 : Int) ≠ 30 := by
  decide

/-- C3 (amended): for every claim event applied to an existing position,
realizedPnl increases by exactly the position's stored unrealizedPnl
(taken as 0 when unset) — not by payout − totalCostBasis — while
totalShares and totalCostBasis are set to 0, isActive becomes false and
closeReason becomes claimed; in Scenario E, where the winning settlement
has stored unrealizedPnl = totalShares − totalCostBasis = 30 and the
payout is 60, this adds exactly 30 = payout − totalCostBasis to
realizedPnl. -/
theorem C3_claim_postcondition (p : ClaimParams) (store : Store) (pos : Position)
    (h : findPos p.key store = some pos) :
    (handleClaim p store).2 = pos.unrealizedPnl.getD 0 ∧
    (findPos p.key (handleClaim p store).1).map Position.realizedPnl
        = some (pos.realizedPnl + pos.unrealizedPnl.getD 0) ∧
    (findPos p.key (handleClaim p store).1).map Position.totalShares = some 0 ∧
    (findPos p.key (handleClaim p store).1).map Position.totalCostBasis = some 0 ∧
    (findPos p.key (handleClaim p store).1).map Position.isActive = some false ∧
    (findPos p.key (handleClaim p store).1).map Position.closeReason
        = some (some CloseReason.CLAIMED) ∧
    ((handleClaim c3Claim [(c3Key, c3WinPos)]).2 = 30 ∧
      c3Claim.payoutAmount - c3WinPos.totalCostBasis = 30 ∧
      (findPos c3Key (handleClaim c3Claim [(c3Key, c3WinPos)]).1).map Position.realizedPnl
          = some 30) := by
  unfold handleClaim
  rw [h]
  refine ⟨rfl, ?_, ?_, ?_, ?_, ?_, by decide, by decide, by decide⟩ <;>
    simp [findPos_updateFirst, h]

/-- C4: sale postcondition.  For every sale against an existing position,
with avgCost = totalCostBasis/totalShares when totalShares > 0 and 0
otherwise, the handler removes exactly ⌊avgCost · sharesSold⌋ from
totalCostBasis, adds exactly (proceeds − that amount) to realizedPnl,
decrements totalShares by sharesSold, and sets isActive to
(new totalShares > 0); Scenario B (buy 100 for 50, sell 40 for 25) ends
at avgCost = 1/2, costRemoved = 20, realizedPnl = 5, totalShares = 60,
totalCostBasis = 30. -/
theorem C4_sale_postcondition (p : SaleParams) (store : Store) (pos : Position)
    (h : findPos p.key store = some pos) :
    (handleSale p store).2 =
        p.proceeds - ⌊avgCostPerShare pos.totalShares pos.totalCostBasis * (p.sharesSold : ℚ)⌋ ∧
    (findPos p.key (handleSale p store).1).map Position.totalCostBasis
        = some (pos.totalCostBasis -
            ⌊avgCostPerShare pos.totalShares pos.totalCostBasis * (p.sharesSold : ℚ)⌋) ∧
    (findPos p.key (handleSale p store).1).map Position.realizedPnl
        = some (pos.realizedPnl + (p.proceeds -
            ⌊avgCostPerShare pos.totalShares pos.totalCostBasis * (p.sharesSold : ℚ)⌋)) ∧
    (findPos p.key (handleSale p store).1).map Position.totalShares
        = some (pos.totalShares - p.sharesSold) ∧
    (findPos p.key (handleSale p store).1).map Position.isActive
        = some (decide (pos.totalShares - p.sharesSold > 0)) ∧
    (avgCostPerShare 100 50 = 1/2 ∧
      costBasisOfSold 100 50 40 = 20 ∧
      (findPos c4Key c4Store).map accounting = some (100, 50, 0, 0, 0, true) ∧
      (handleSale c4Sale c4Store).2 = 5 ∧
      (findPos c4Key (handleSale c4Sale c4Store).1).map accounting
          = some (60, 30, 5, 40, 25, true)) := by
  rw [← costBasisOfSold_eq_floor]
  unfold handleSale
  rw [h]
  refine ⟨rfl, ?_, ?_, ?_, ?_,
    by unfold avgCostPerShare; norm_num, by decide, by decide, by decide, by decide⟩ <;>
    simp [findPos_updateFirst, h]

/-- C4 witness: the sale postcondition instantiated at Scenario B's
concrete store. -/
theorem C4_sale_postcondition_witness :
    (handleSale c4Sale c4Store).2 =
        c4Sale.proceeds -
          ⌊avgCostPerShare c4Pos.totalShares c4Pos.totalCostBasis * (c4Sale.sharesSold : ℚ)⌋ :=
  (C4_sale_postcondition c4Sale c4Store c4Pos (by decide)).1

/-- C3 witness: the amended claim postcondition instantiated at Scenario
E's concrete store. -/
theorem C3_claim_postcondition_witness :
    (handleClaim c3Claim [(c3Key, c3WinPos)]).2 = c3WinPos.unrealizedPnl.getD 0 :=
  (C3_claim_postcondition c3Claim [(c3Key, c3WinPos)] c3WinPos (by decide)).1

/-- C5: winning-set settlement.  Every active position of the resolved
market with rangeLower ≤ resolvedValue ≤ rangeUpper — both bounds
inclusive, so rangeUpper = resolvedValue also wins — is rewritten with
unrealizedPnl = totalShares − totalCostBasis (no scaling) and stays
active (the record update touches no other field, so isActive keeps its
value true). -/
theorem C5_winning_settlement (m : String) (rv : Int) (store : Store)
    (k : PosKey) (pos : Position) (hmem : (k, pos) ∈ store)
    (hm : k.marketId = m) (hact : pos.isActive = true)
    (hlo : k.rangeLower ≤ rv) (hhi : rv ≤ k.rangeUpper) :
    (k, { pos with unrealizedPnl := some (pos.totalShares - pos.totalCostBasis) })
        ∈ calculateWinningPositions m rv store ∧
    ({ pos with
        unrealizedPnl := some (pos.totalShares - pos.totalCostBasis) } : Position).isActive
        = true := by
  constructor
  · have hupd : calculateWinningUpdate m rv (k, pos)
        = (k, { pos with unrealizedPnl := some (pos.totalShares - pos.totalCostBasis) }) := by
      simp only [calculateWinningUpdate]
      rw [if_pos ⟨hm, hact, hlo, hhi⟩]

    exact hupd ▸ List.mem_map_of_mem _ hmem
  · simpa using hact

/-- C5 witness: the boundary case resolvedValue = rangeUpper = 91000 is
classified winning. -/
theorem C5_winning_settlement_witness :
    (c5Key, { c5Pos with unrealizedPnl := some (c5Pos.totalShares - c5Pos.totalCostBasis) })
        ∈ calculateWinningPositions "m5" 91000 c5Store :=
  (C5_winning_settlement "m5" 91000 c5Store c5Key c5Pos (by decide) (by decide) (by decide)
    (by decide) (by decide)).1

/-- C6: losing-set settlement frame.  Every active position of the
resolved market with resolvedValue < rangeLower or resolvedValue >
rangeUpper is rewritten with isActive = false, closeReason =
lostResolution, unrealizedPnl = −totalCostBasis, closedAt and
lastUpdatedAt stamped — and nothing else: totalShares, totalCostBasis,
realizedPnl, totalSharesSold and totalProceeds keep their values, as the
record-update form of the conclusion exhibits.  Positions of other
markets and inactive positions pass through unchanged. -/
theorem C6_losing_settlement (m : String) (rv ts : Int) (store : Store)
    (k : PosKey) (pos : Position) (hmem : (k, pos) ∈ store) :
    (k.marketId = m → pos.isActive = true →
      (rv < k.rangeLower ∨ k.rangeUpper < rv) →
      (k, { pos with
              isActive := false
              closedAt := some ts
              lastUpdatedAt := ts
              closeReason := some CloseReason.LOST_RESOLUTION
              unrealizedPnl := some (-pos.totalCostBasis) })
          ∈ closeLosingPositions m rv ts store) ∧
    ((k.marketId ≠ m ∨ pos.isActive = false) →
      (k, pos) ∈ closeLosingPositions m rv ts store) := by
  constructor
  · intro hm hact hlose
    have hupd : closeLosingUpdate m rv ts (k, pos)
        = (k, { pos with
                  isActive := false
                  closedAt := some ts
                  lastUpdatedAt := ts
                  closeReason := some CloseReason.LOST_RESOLUTION
                  unrealizedPnl := some (-pos.totalCostBasis) }) := by
      simp only [closeLosingUpdate]
      rw [if_pos ⟨hm, hact, hlose⟩]
    exact hupd ▸ List.mem_map_of_mem _ hmem
  · intro hother
    have hupd : closeLosingUpdate m rv ts (k, pos) = (k, pos) := by
      simp only [closeLosingUpdate]
      rw [if_neg]
      rintro ⟨h1, h2, h3⟩
      rcases hother with ho | ho
      · exact ho h1
      · rw [ho] at h2
        exact Bool.false_ne_true h2
    exact hupd ▸ List.mem_map_of_mem _ hmem

/-- C6 witness: at resolvedValue 95000 the [90000, 91000] position of
market m6 is closed as lost with unrealizedPnl = −30 and its accounting
fields intact, while the other market's position passes through
untouched. -/
theorem C6_losing_settlement_witness :
    (c6Key, { c6Pos with
                isActive := false
                closedAt := some (99 : Int)
                lastUpdatedAt := (99 : Int)
                closeReason := some CloseReason.LOST_RESOLUTION
                unrealizedPnl := some (-c6Pos.totalCostBasis) })
        ∈ closeLosingPositions "m6" 95000 99 c6Store ∧
    (c6KeyOther, c6PosOther) ∈ closeLosingPositions "m6" 95000 99 c6Store :=
  ⟨(C6_losing_settlement "m6" 95000 99 c6Store c6Key c6Pos (by decide)).1
      (by decide) (by decide) (by decide),
   (C6_losing_settlement "m6" 95000 99 c6Store c6KeyOther c6PosOther (by decide)).2
      (by decide)⟩

/-- C7: settlement idempotence.  For any store, market and resolved
value, running the losing-then-winning settlement pair twice (with any
pair of run timestamps) leaves every position exactly as one run does. -/
theorem C7_settlement_idempotence (m : String) (rv ts1 ts2 : Int) (store : Store) :
    settleMarket m rv ts2 (settleMarket m rv ts1 store) = settleMarket m rv ts1 store := by
  unfold settleMarket closeLosingPositions calculateWinningPositions
  simp only [List.map_map]
  refine List.map_congr_left fun entry _ => ?_
  simp only [Function.comp_apply]
  exact settleUpdate_idem m rv ts1 ts2 entry

/-- C8: ingestion idempotence under duplicate delivery.  Re-delivering
the same event to its handler a second time leaves the entire ingestion
state — trades keys, event log and position aggregate — exactly as the
first delivery left it: the duplicate insert is rejected by the
uniqueness constraint, the conflict is swallowed, and the position update
does not run again.  This holds for each of the three handlers. -/
theorem C8_ingestion_idempotence :
    (∀ (p : BetPlacedParams) (s : IngestState),
        handleBetPlaced p (handleBetPlaced p s) = handleBetPlaced p s) ∧
    (∀ (p : SharesSoldParams) (s : IngestState),
        handleSharesSold p (handleSharesSold p s) = handleSharesSold p s) ∧
    (∀ (p : WinningsClaimedParams) (s : IngestState),
        handleWinningsClaimed p (handleWinningsClaimed p s) = handleWinningsClaimed p s) :=
  ⟨fun p s => handleBetPlaced_dup p _ (handleBetPlaced_mem_trades p s),
   fun p s => handleSharesSold_dup p _ (handleSharesSold_mem_trades p s),
   fun p s => handleWinningsClaimed_dup p _ (handleWinningsClaimed_mem_trades p s)⟩

/-- C9: missing prior state.  A sale or claim whose composite key matches
no stored position leaves the store exactly as it was and returns a
realized-PnL delta of 0 (and, the handlers being total functions, does
not throw). -/
theorem C9_missing_position_noop (ps : SaleParams) (sStore : Store)
    (pc : ClaimParams) (cStore : Store)
    (hs : findPos ps.key sStore = none) (hc : findPos pc.key cStore = none) :
    handleSale ps sStore = (sStore, 0) ∧ handleClaim pc cStore = (cStore, 0) := by
  refine ⟨?_, ?_⟩
  · unfold handleSale
    rw [hs]
  · unfold handleClaim
    rw [hc]

/-- C9 witness: sale and claim against an empty store are no-ops with
delta 0. -/
theorem C9_missing_position_noop_witness :
    handleSale c9Sale [] = ([], 0) ∧ handleClaim c9Claim [] = ([], 0) :=
  C9_missing_position_noop c9Sale [] c9Claim [] (by decide) (by decide)

/-- C10: sale against an existing position with totalShares = 0.  The
average cost is taken as 0, so costRemoved = 0, the entire proceeds go to
realizedPnl as pure profit, totalShares becomes −sharesSold, the position
is marked inactive, and the residual cost basis is untouched. -/
theorem C10_sale_zero_shares (p : SaleParams) (store : Store) (pos : Position)
    (h : findPos p.key store = some pos) (hz : pos.totalShares = 0)
    (hpos : 0 < p.sharesSold) :
    costBasisOfSold pos.totalShares pos.totalCostBasis p.sharesSold = 0 ∧
    (handleSale p store).2 = p.proceeds ∧
    (findPos p.key (handleSale p store).1).map Position.realizedPnl
        = some (pos.realizedPnl + p.proceeds) ∧
    (findPos p.key (handleSale p store).1).map Position.totalShares
        = some (-p.sharesSold) ∧
    (findPos p.key (handleSale p store).1).map Position.isActive = some false ∧
    (findPos p.key (handleSale p store).1).map Position.totalCostBasis
        = some pos.totalCostBasis := by
  have hcb : costBasisOfSold pos.totalShares pos.totalCostBasis p.sharesSold = 0 := by
    simp [costBasisOfSold, hz]
  unfold handleSale
  rw [h]
  refine ⟨hcb, ?_, ?_, ?_, ?_, ?_⟩
  · simp [hcb]
  · simp [findPos_updateFirst, h, hcb]
  · simp [findPos_updateFirst, h, hz]
  · simp [findPos_updateFirst, h, hz]
    omega
  · simp [findPos_updateFirst, h, hcb]

/-- C10 witness: the zero-share sale at the concrete store returns the
full proceeds as the realized delta. -/
theorem C10_sale_zero_shares_witness :
    (handleSale c10Sale c10Store).2 = c10Sale.proceeds :=
  (C10_sale_zero_shares c10Sale c10Store c10Pos (by decide) (by decide) (by decide)).2.1

end EventParser
